import Mathlib

/-!
Verification of the Events-API core against its design specification.

The repository ships only its integration/unit tests and the WSGI
entrypoint; the application modules themselves (`models.py`, `app.py`,
the auth and route code) are not present. Every definition below is
therefore modelled from the specification (spec.md sections 2-7),
constrained additionally by the contracts the shipped tests exercise.
JSON dictionaries are embedded as association lists of string keys to a
small JSON value type, so that claims about the presence or absence of
fields are meaningful.
-/

/-- JSON-like values used for serialized views. -/
inductive JValue where
  | str  : String → JValue
  | int  : Int → JValue
  | bool : Bool → JValue
  | null : JValue
  | arr  : List JValue → JValue
  | obj  : List (String × JValue) → JValue

/-- Association-list JSON object, as produced by the `to_dict` methods. -/
abbrev JObject := List (String × JValue)

/-- Modelled from the spec: the RSVP entity (models.RSVP, not shipped in
src/): "reference to Event ..., optional reference to User (nullable —
anonymous attendance is permitted for public events), boolean attending". -/
structure RSVP where
  event_id : Nat
  user_id : Option Nat
  attending : Bool
deriving DecidableEq, Repr

/-- Modelled from the spec: the User entity (models.User, not shipped in
src/): "unique username (immutable identity key), password hash (never
serialized outward), admin flag (boolean, defaults false)". -/
structure User where
  id : Nat
  username : String
  password_hash : Option String := none
  is_admin : Bool := false
deriving DecidableEq, Repr

/-- Modelled from the spec: the Event entity (models.Event, not shipped in
src/): title, description, date (timestamp), location, capacity,
`is_public`, `requires_admin`, nullable creator reference, and the owned
RSVP collection (the `rsvps` relationship the unit tests attach to). -/
structure Event where
  id : Nat
  title : String
  description : String
  date : Int
  location : String
  capacity : Nat
  is_public : Bool
  requires_admin : Bool
  created_by : Option Nat
  rsvps : List RSVP := []
deriving DecidableEq, Repr

/-- Modelled from the spec: the credential store's salted one-way hash
(User.set_password computes "a salted, irreversible hash"). Irreversibility
is not representable in a shallow embedding, so the hash is modelled as an
injective tagging function; the proofs only use that it is deterministic,
injective, and never equal to its input. -/
def hashPassword (plaintext : String) : String :=
  String.mk ('p' :: 'b' :: 'k' :: 'd' :: 'f' :: '2' :: '$' :: plaintext.data)

/-- Modelled from the spec: `set_password(plaintext)` "computes a salted,
irreversible hash and stores it". -/
def User.set_password (u : User) (plaintext : String) : User :=
  { u with password_hash := some (hashPassword plaintext) }

/-- Modelled from the spec: `check_password(plaintext)` "returns true iff
the plaintext's hash matches the stored hash ... Returns false (never
throws) on mismatch". -/
def User.check_password (u : User) (plaintext : String) : Bool :=
  u.password_hash = some (hashPassword plaintext)

/-- Modelled from the spec: `serialize()` "produces a public view of the
user (username, admin flag, identifying id) that excludes the password
hash unconditionally" (the tests call it `to_dict`). -/
def User.to_dict (u : User) : JObject :=
  [("id", .int u.id), ("username", .str u.username), ("is_admin", .bool u.is_admin)]

/-- Derived attendance helper: the distinct non-null user ids among RSVP
records whose `attending` flag is true (spec 4.4, `serialize_event`). -/
def attendeeIds (rs : List RSVP) : List Nat :=
  ((rs.filter (fun r => r.attending)).filterMap (fun r => r.user_id)).dedup

/-- Modelled from the spec: `serialize_event` (Event.to_dict, not shipped
in src/): "returns title, description, date, location, capacity,
visibility flags, creator id, plus two derived fields ...: `rsvp_count` =
total number of RSVP records attached to the event regardless of
`attending` value or anonymity, and `attendees` = the set of distinct
non-null user ids among RSVP records where `attending` is true". The `id`
field is required by the shipped integration tests, which read it from the
creation response. -/
def Event.to_dict (e : Event) : JObject :=
  [("id", .int e.id),
   ("title", .str e.title),
   ("description", .str e.description),
   ("date", .int e.date),
   ("location", .str e.location),
   ("capacity", .int e.capacity),
   ("is_public", .bool e.is_public),
   ("requires_admin", .bool e.requires_admin),
   ("created_by", match e.created_by with | some i => .int i | none => .null),
   ("rsvp_count", .int e.rsvps.length),
   ("attendees", .arr ((attendeeIds e.rsvps).map (fun i => JValue.int i)))]

/-- Modelled from the spec: the sanitized RSVP view "including the
resolved `event_id` and `attending`" (spec 4.4, `create_rsvp`). -/
def RSVP.to_dict (r : RSVP) : JObject :=
  [("event_id", .int r.event_id),
   ("user_id", match r.user_id with | some i => .int i | none => .null),
   ("attending", .bool r.attending)]

/-- Identity carried by a token: user id, admin flag, expiry timestamp
(spec 4.2: tokens are "signed, time-bound identity tokens carrying user id
and admin flag"). -/
structure TokenPayload where
  user_id : Nat
  is_admin : Bool
  exp : Nat
deriving DecidableEq, Repr

/-- A token is a payload plus its signature (spec 4.2). -/
structure Token where
  payload : TokenPayload
  sig : Nat
deriving DecidableEq, Repr

/-- Modelled from the spec: the token signature (the JWT signing step of
the Token Service, not shipped in src/). Cryptographic properties are not
representable in a shallow embedding; the signature is modelled as a
deterministic keyed function of the payload. -/
def sign (secret : Nat) (p : TokenPayload) : Nat :=
  secret + 2 * p.user_id + 3 * p.exp + (if p.is_admin then 1 else 0)

/-- Modelled from the spec: `issue(user)` "produces a signed token
encoding user id and admin flag, valid for a bounded lifetime". `now` is
the issuance time and `lifetime` the configured bound. -/
def issue (secret : Nat) (now lifetime : Nat) (u : User) : Token :=
  let p : TokenPayload := ⟨u.id, u.is_admin, now + lifetime⟩
  ⟨p, sign secret p⟩

/-- Reasons a token fails verification (spec 4.2: signature mismatch and
expiry are rejected "distinctly enough for the caller"). -/
inductive AuthFailure where
  | badSignature
  | expired
deriving DecidableEq, Repr

/-- Modelled from the spec: `verify(token)` "returns the decoded identity
(user id, admin flag) if the signature is valid and the token is
unexpired; otherwise signals an authentication failure". -/
def verify (secret : Nat) (now : Nat) (t : Token) : Except AuthFailure TokenPayload :=
  if t.sig ≠ sign secret t.payload then .error .badSignature
  else if t.payload.exp ≤ now then .error .expired
  else .ok t.payload

/-- The credential an inbound request carries: either no Authorization
header at all, or a bearer token (spec 6). -/
inductive Credential where
  | anon
  | bearer : Token → Credential
deriving DecidableEq, Repr

/-- The actor a request resolves to (spec glossary: "the identity (or
anonymous) making a request, resolved via credential verification"). -/
inductive Actor where
  | anonymous
  | authenticated : TokenPayload → Actor
deriving DecidableEq, Repr

/-- Error taxonomy of the core (spec 7). -/
inductive ApiError where
  | DuplicateUsername
  | InvalidCredentials
  | Unauthenticated
  | Forbidden
  | NotFound
deriving DecidableEq, Repr

/-- Status-code mapping the transport applies to each error (spec 6). -/
def statusOf : ApiError → Nat
  | .DuplicateUsername => 400
  | .InvalidCredentials => 401
  | .Unauthenticated => 401
  | .Forbidden => 403
  | .NotFound => 404

/-- Modelled from the spec: actor resolution (spec 4.2/6): "Absence of a
token is a distinct state (anonymous actor) from an invalid token
(authentication failure)"; an invalid credential "must be rejected, not
silently downgraded to anonymous". -/
def resolve_actor (secret now : Nat) (c : Credential) : Except ApiError Actor :=
  match c with
  | .anon => .ok .anonymous
  | .bearer t =>
    match verify secret now t with
    | .ok p => .ok (.authenticated p)
    | .error _ => .error .Unauthenticated

/-- An HTTP response as the transport returns it: status code plus JSON
object body (spec 6). -/
structure Response where
  status : Nat
  body : JObject

/-- Name of each error kind, as written into error bodies (spec 7). -/
def errName : ApiError → String
  | .DuplicateUsername => "DuplicateUsername"
  | .InvalidCredentials => "InvalidCredentials"
  | .Unauthenticated => "Unauthenticated"
  | .Forbidden => "Forbidden"
  | .NotFound => "NotFound"

/-- Error responses carry at least an error indicator (spec 7). -/
def errResponse (e : ApiError) : Response :=
  { status := statusOf e, body := [("error", .str (errName e))] }

/-- The stored state the endpoints mutate: users, events (each owning its
RSVPs), and the id counters of the persistence layer (spec 6). -/
structure AppState where
  users : List User
  events : List Event
  next_user_id : Nat
  next_event_id : Nat
deriving DecidableEq, Repr

/-- Persistence-layer lookup of a user by username (spec 6). -/
def findUserByUsername (st : AppState) (username : String) : Option User :=
  st.users.find? (fun u => u.username == username)

/-- Persistence-layer lookup of an event by id (spec 6). -/
def findEventById (st : AppState) (eid : Nat) : Option Event :=
  st.events.find? (fun e => e.id == eid)

/-- Modelled from the spec: the Register operation (the auth route, not
shipped in src/): "always allowed for anonymous actors, except if the
requested username already exists for another user → fails with
DuplicateUsername" (spec 4.3); success is "201, user view" nested under a
`user` key, as the shipped registration test reads it (spec 6). -/
def register (st : AppState) (username password : String) : Response × AppState :=
  match findUserByUsername st username with
  | some _ => (errResponse .DuplicateUsername, st)
  | none =>
    let u : User :=
      (User.set_password { id := st.next_user_id, username := username } password)
    ({ status := 201, body := [("user", .obj u.to_dict)] },
     { st with users := st.users ++ [u], next_user_id := st.next_user_id + 1 })

/-- Modelled from the spec: the Login operation (spec 4.3): "allowed for
anonymous actors with correct credentials; fails with InvalidCredentials
otherwise"; success returns a freshly issued token (spec 6). Login mutates
nothing. -/
def login (secret now lifetime : Nat) (st : AppState) (username password : String) :
    Except ApiError Token :=
  match findUserByUsername st username with
  | none => .error .InvalidCredentials
  | some u =>
    if u.check_password password then .ok (issue secret now lifetime u)
    else .error .InvalidCredentials

/-- Input fields of event creation, as the integration tests post them. -/
structure EventFields where
  title : String
  description : String
  date : Int
  location : String
  capacity : Nat
  is_public : Bool
  requires_admin : Bool
deriving DecidableEq, Repr

/-- Modelled from the spec: the CreateEvent operation (spec 4.3/4.4):
"requires an authenticated actor ... fails with Unauthenticated if no
valid token. If the event being created has requires_admin = true, the
creating actor must additionally have the admin flag, else fails with
Forbidden"; on allow it "constructs an Event record owned by actor ...
returns the sanitized view" with status 201 (spec 6). The policy check
completes before any mutation (spec 5). -/
def create_event (secret now : Nat) (st : AppState) (cred : Credential) (f : EventFields) :
    Response × AppState :=
  match resolve_actor secret now cred with
  | .error e => (errResponse e, st)
  | .ok .anonymous => (errResponse .Unauthenticated, st)
  | .ok (.authenticated p) =>
    if f.requires_admin && !p.is_admin then (errResponse .Forbidden, st)
    else
      let e : Event :=
        { id := st.next_event_id, title := f.title, description := f.description,
          date := f.date, location := f.location, capacity := f.capacity,
          is_public := f.is_public, requires_admin := f.requires_admin,
          created_by := some p.user_id, rsvps := [] }
      ({ status := 201, body := e.to_dict },
       { st with events := st.events ++ [e], next_event_id := st.next_event_id + 1 })

/-- Modelled from the spec: the RSVP gate (spec 4.3): "mirrors ViewEvent's
gate — public events accept RSVPs from any actor including anonymous;
non-public events require authentication (and admin if requires_admin)",
evaluated against the target event's flags. Returns the denial, if any. -/
def rsvpPolicy (a : Actor) (e : Event) : Option ApiError :=
  if e.is_public then none
  else
    match a with
    | .anonymous => some .Unauthenticated
    | .authenticated p =>
      if e.requires_admin && !p.is_admin then some .Forbidden else none

/-- Modelled from the spec: `create_rsvp(actor_or_anonymous, event_id,
attending)` (spec 4.4): "validates via Access Policy 4.3 against the
identified Event; fails with NotFound if the event id does not resolve; on
success appends an RSVP row referencing the event and the actor's id (or
null if anonymous) and the supplied attending boolean; returns the
sanitized RSVP view including the resolved event_id and attending" with
status 201 (spec 6). The policy check completes before any mutation
(spec 5). -/
def create_rsvp (secret now : Nat) (st : AppState) (cred : Credential) (eid : Nat)
    (attending : Bool) : Response × AppState :=
  match resolve_actor secret now cred with
  | .error e => (errResponse e, st)
  | .ok actor =>
    match findEventById st eid with
    | none => (errResponse .NotFound, st)
    | some ev =>
      match rsvpPolicy actor ev with
      | some e => (errResponse e, st)
      | none =>
        let uid : Option Nat :=
          match actor with
          | .anonymous => none
          | .authenticated p => some p.user_id
        let r : RSVP := { event_id := ev.id, user_id := uid, attending := attending }
        ({ status := 201, body := r.to_dict },
         { st with
             events := st.events.map
               (fun e => if e.id == eid then { e with rsvps := e.rsvps ++ [r] } else e) })

/-- Helper: the hash tag makes the stored hash differ from the plaintext. -/
theorem hashPassword_ne (p : String) : hashPassword p ≠ p := by
  intro h
  have hd : ('p' :: 'b' :: 'k' :: 'd' :: 'f' :: '2' :: '$' :: p.data) = p.data :=
    congrArg String.data h
  have hl := congrArg List.length hd
  simp at hl
  omega

/-- Helper: the modelled hash is injective on plaintexts. -/
theorem hashPassword_injective {p q : String} (h : hashPassword p = hashPassword q) :
    p = q := by
  have hd := congrArg String.data h
  have hpq : p.data = q.data := by simpa [hashPassword] using hd
  exact congrArg String.mk hpq

/-- Helper: membership in the derived attendee list is exactly being the
non-null user id of some attending RSVP record. -/
theorem mem_attendeeIds (rs : List RSVP) (uid : Nat) :
    uid ∈ attendeeIds rs ↔ ∃ r ∈ rs, r.attending = true ∧ r.user_id = some uid := by
  simp only [attendeeIds, List.mem_dedup, List.mem_filterMap, List.mem_filter]
  constructor
  · rintro ⟨r, ⟨hr, ha⟩, hu⟩
    exact ⟨r, hr, ha, hu⟩
  · rintro ⟨r, hr, ha, hu⟩
    exact ⟨r, ⟨hr, ha⟩, hu⟩

/-- Helper: the derived attendee list only depends on the RSVP collection
up to permutation. -/
theorem attendeeIds_perm {rs rs' : List RSVP} (h : rs.Perm rs') :
    (attendeeIds rs).Perm (attendeeIds rs') := by
  unfold attendeeIds
  exact ((h.filter (fun r => r.attending)).filterMap (fun r => r.user_id)).dedup

/-- C1: for every Event and RSVP collection, the serialized view's
`rsvp_count` is the total number of RSVP records (declines and anonymous
records included), its `attendees` field is the distinct non-null user ids
of the attending records, and both derived fields are independent of the
ordering of the collection. -/
theorem event_view_derived_fields (e : Event) (rs' : List RSVP) (h : e.rsvps.Perm rs') :
    (Event.to_dict e).lookup "rsvp_count" = some (.int e.rsvps.length) ∧
    (Event.to_dict e).lookup "attendees" =
      some (.arr ((attendeeIds e.rsvps).map (fun i => JValue.int i))) ∧
    (attendeeIds e.rsvps).Nodup ∧
    (∀ uid : Nat, uid ∈ attendeeIds e.rsvps ↔
      ∃ r ∈ e.rsvps, r.attending = true ∧ r.user_id = some uid) ∧
    rs'.length = e.rsvps.length ∧
    (attendeeIds rs').Perm (attendeeIds e.rsvps) := by
  refine ⟨rfl, rfl, ?_, mem_attendeeIds e.rsvps, h.length_eq.symm, (attendeeIds_perm h).symm⟩
  unfold attendeeIds
  exact List.nodup_dedup _

/-- Concrete event used to witness C1, with the RSVP collection of the
shipped unit test: one decline, one anonymous attendee, two identified
attendees. -/
def evWitness : Event :=
  { id := 1, title := "RSVP Test", description := "Desc", date := 0,
    location := "Berlin", capacity := 10, is_public := true,
    requires_admin := false, created_by := none,
    rsvps := [⟨1, some 1, true⟩, ⟨1, some 2, false⟩, ⟨1, none, true⟩, ⟨1, some 3, true⟩] }

/-- Reversed RSVP collection used to witness order-independence in C1. -/
def rsWitness : List RSVP :=
  [⟨1, some 3, true⟩, ⟨1, none, true⟩, ⟨1, some 2, false⟩, ⟨1, some 1, true⟩]

/-- Witness for C1 at the unit test's event and a reversal of its RSVPs. -/
theorem event_view_derived_fields_witness :
    (Event.to_dict evWitness).lookup "rsvp_count" = some (.int evWitness.rsvps.length) ∧
    (Event.to_dict evWitness).lookup "attendees" =
      some (.arr ((attendeeIds evWitness.rsvps).map (fun i => JValue.int i))) ∧
    (attendeeIds evWitness.rsvps).Nodup ∧
    (∀ uid : Nat, uid ∈ attendeeIds evWitness.rsvps ↔
      ∃ r ∈ evWitness.rsvps, r.attending = true ∧ r.user_id = some uid) ∧
    rsWitness.length = evWitness.rsvps.length ∧
    (attendeeIds rsWitness).Perm (attendeeIds evWitness.rsvps) :=
  event_view_derived_fields evWitness rsWitness (by decide)

/-- C2: the sanitized user view never contains a password-hash field, for
every user — any username, any stored password, either admin flag. -/
theorem user_view_excludes_password_hash (u : User) (pw : String) :
    "password_hash" ∉ (User.to_dict u).map Prod.fst ∧
    "password_hash" ∉ (User.to_dict (u.set_password pw)).map Prod.fst := by
  constructor <;> simp [User.to_dict, User.set_password]

/-- C4: setting a password stores a hash different from the plaintext,
after which checking the same plaintext succeeds and checking any other
plaintext returns false (no exception: `check_password` is total). -/
theorem password_roundtrip (u : User) (p p' : String) (h : p' ≠ p) :
    (u.set_password p).password_hash = some (hashPassword p) ∧
    hashPassword p ≠ p ∧
    (u.set_password p).check_password p = true ∧
    (u.set_password p).check_password p' = false := by
  refine ⟨rfl, hashPassword_ne p, ?_, ?_⟩
  · simp [User.check_password, User.set_password]
  · simp only [User.check_password, User.set_password, decide_eq_false_iff_not]
    intro hc
    exact h (hashPassword_injective (Option.some.inj hc)).symm

/-- Witness for C4 at the unit test's inputs. -/
theorem password_roundtrip_witness :
    ("wrong" ≠ "secret123") ∧
    ((User.set_password { id := 1, username := "alice" } "secret123").password_hash =
        some (hashPassword "secret123") ∧
      hashPassword "secret123" ≠ "secret123" ∧
      (User.set_password { id := 1, username := "alice" } "secret123").check_password
          "secret123" = true ∧
      (User.set_password { id := 1, username := "alice" } "secret123").check_password
          "wrong" = false) :=
  ⟨by decide, password_roundtrip { id := 1, username := "alice" } "secret123" "wrong" (by decide)⟩

/-- C7: verifying a token immediately after issuance yields exactly the
user id and admin flag that were encoded; verifying once the bounded
lifetime has elapsed fails as expired instead of returning an identity. -/
theorem token_roundtrip_and_expiry (secret now lifetime now2 : Nat) (u : User)
    (hl : 0 < lifetime) (h2 : now + lifetime ≤ now2) :
    verify secret now (issue secret now lifetime u) =
      .ok ⟨u.id, u.is_admin, now + lifetime⟩ ∧
    verify secret now2 (issue secret now lifetime u) = .error .expired := by
  constructor
  · simp only [verify, issue]
    rw [if_neg (by simp), if_neg (by omega)]
  · simp only [verify, issue]
    rw [if_neg (by simp), if_pos h2]

/-- Witness for C7: a token for user 7 issued at time 100 with lifetime
3600, verified at 100 and again at 3700. -/
theorem token_roundtrip_and_expiry_witness :
    0 < 3600 ∧ 100 + 3600 ≤ 3700 ∧
    (verify 42 100 (issue 42 100 3600 { id := 7, username := "alice", is_admin := true }) =
      .ok ⟨7, true, 100 + 3600⟩ ∧
    verify 42 3700 (issue 42 100 3600 { id := 7, username := "alice", is_admin := true }) =
      .error .expired) :=
  ⟨by decide, by decide,
   token_roundtrip_and_expiry 42 100 3600 3700
     { id := 7, username := "alice", is_admin := true } (by decide) (by decide)⟩

/-- Public event used by several witnesses. -/
def evPub : Event :=
  { id := 1, title := "Public Test Event", description := "it", date := 0,
    location := "Berlin", capacity := 25, is_public := true,
    requires_admin := false, created_by := some 7, rsvps := [] }

/-- Non-public event used by several witnesses. -/
def evPriv : Event :=
  { id := 2, title := "Protected Event", description := "it", date := 0,
    location := "Munich", capacity := 10, is_public := false,
    requires_admin := false, created_by := some 7, rsvps := [] }

/-- Non-public, admin-gated event used by several witnesses. -/
def evPrivAdmin : Event :=
  { id := 3, title := "Admin Event", description := "it", date := 0,
    location := "Berlin", capacity := 10, is_public := false,
    requires_admin := true, created_by := some 7, rsvps := [] }

/-- Stored state used by several witnesses: three events, no users yet. -/
def stWitness : AppState :=
  { users := [], events := [evPub, evPriv, evPrivAdmin],
    next_user_id := 1, next_event_id := 4 }

/-- A token whose signature does not match its payload. -/
def badToken : Token :=
  { payload := { user_id := 1, is_admin := false, exp := 200 },
    sig := sign 42 { user_id := 1, is_admin := false, exp := 200 } + 1 }

/-- C8: a missing credential resolves to the anonymous actor while an
invalid credential resolves to an authentication failure — distinguishable
outcomes — and an invalid credential is never downgraded to anonymous: an
RSVP to a public event succeeds without a credential but is rejected,
state unchanged, when it carries an invalid token. -/
theorem anonymous_vs_invalid_credential (secret now : Nat) (t : Token) (err : AuthFailure)
    (hv : verify secret now t = .error err) (st : AppState) (eid : Nat) (ev : Event)
    (att : Bool) (hfind : findEventById st eid = some ev) (hpub : ev.is_public = true) :
    resolve_actor secret now .anon = .ok .anonymous ∧
    resolve_actor secret now (.bearer t) = .error .Unauthenticated ∧
    (create_rsvp secret now st .anon eid att).fst.status = 201 ∧
    create_rsvp secret now st (.bearer t) eid att = (errResponse .Unauthenticated, st) := by
  refine ⟨rfl, ?_, ?_, ?_⟩
  · simp [resolve_actor, hv]
  · simp [create_rsvp, resolve_actor, hfind, rsvpPolicy, hpub]
  · simp [create_rsvp, resolve_actor, hv, errResponse, statusOf]

/-- Witness for C8: the public event of `stWitness`, a token with a broken
signature, and an anonymous request. -/
theorem anonymous_vs_invalid_credential_witness :
    verify 42 100 badToken = .error .badSignature ∧
    findEventById stWitness 1 = some evPub ∧
    evPub.is_public = true ∧
    (resolve_actor 42 100 .anon = .ok .anonymous ∧
     resolve_actor 42 100 (.bearer badToken) = .error .Unauthenticated ∧
     (create_rsvp 42 100 stWitness .anon 1 true).fst.status = 201 ∧
     create_rsvp 42 100 stWitness (.bearer badToken) 1 true =
       (errResponse .Unauthenticated, stWitness)) :=
  ⟨rfl, rfl, rfl,
   anonymous_vs_invalid_credential 42 100 badToken .badSignature rfl stWitness 1 evPub
     true rfl rfl⟩

/-- C3: an anonymous RSVP to a public event succeeds with a view echoing
the request's event id and attending flag; an anonymous RSVP to a
non-public event fails with Unauthenticated (401); an RSVP with a valid
non-admin credential to a non-public admin-gated event fails with
Forbidden (403) — state unchanged on both failures. -/
theorem rsvp_access_gate (secret now : Nat) (st : AppState) (eid : Nat) (ev : Event)
    (att : Bool) (hfind : findEventById st eid = some ev) :
    (ev.is_public = true →
      (create_rsvp secret now st .anon eid att).fst.status = 201 ∧
      (create_rsvp secret now st .anon eid att).fst.body.lookup "event_id" =
        some (.int eid) ∧
      (create_rsvp secret now st .anon eid att).fst.body.lookup "attending" =
        some (.bool att)) ∧
    (ev.is_public = false →
      create_rsvp secret now st .anon eid att = (errResponse .Unauthenticated, st) ∧
      statusOf .Unauthenticated = 401) ∧
    (∀ (t : Token) (p : TokenPayload), ev.is_public = false → ev.requires_admin = true →
      verify secret now t = .ok p → p.is_admin = false →
      create_rsvp secret now st (.bearer t) eid att = (errResponse .Forbidden, st) ∧
      statusOf .Forbidden = 403) := by
  have hid : ev.id = eid := by
    have hb := List.find?_some hfind
    simpa using hb
  refine ⟨fun hpub => ?_, fun hpriv => ?_, fun t p hpriv hadm hv hnadm => ?_⟩
  · subst hid
    simp [create_rsvp, resolve_actor, hfind, rsvpPolicy, hpub, RSVP.to_dict, List.lookup]
  · simp [create_rsvp, resolve_actor, hfind, rsvpPolicy, hpriv, statusOf]
  · simp [create_rsvp, resolve_actor, hv, hfind, rsvpPolicy, hpriv, hadm, hnadm, statusOf]

/-- Witness for C3 at the public event of `stWitness`. -/
theorem rsvp_access_gate_witness :
    findEventById stWitness 1 = some evPub ∧
    ((evPub.is_public = true →
      (create_rsvp 42 100 stWitness .anon 1 true).fst.status = 201 ∧
      (create_rsvp 42 100 stWitness .anon 1 true).fst.body.lookup "event_id" =
        some (.int 1) ∧
      (create_rsvp 42 100 stWitness .anon 1 true).fst.body.lookup "attending" =
        some (.bool true)) ∧
    (evPub.is_public = false →
      create_rsvp 42 100 stWitness .anon 1 true = (errResponse .Unauthenticated, stWitness) ∧
      statusOf .Unauthenticated = 401) ∧
    (∀ (t : Token) (p : TokenPayload), evPub.is_public = false →
      evPub.requires_admin = true →
      verify 42 100 t = .ok p → p.is_admin = false →
      create_rsvp 42 100 stWitness (.bearer t) 1 true = (errResponse .Forbidden, stWitness) ∧
      statusOf .Forbidden = 403)) :=
  ⟨rfl, rsvp_access_gate 42 100 stWitness 1 evPub true rfl⟩

/-- A token validly issued to a non-admin user. -/
def tokUser : Token :=
  issue 42 100 3600 { id := 7, username := "creator", is_admin := false }

/-- Creation fields of an ordinary public event. -/
def fPub : EventFields :=
  { title := "Public Test Event", description := "it", date := 0,
    location := "Berlin", capacity := 25, is_public := true, requires_admin := false }

/-- Creation fields of an admin-gated event. -/
def fAdmin : EventFields := { fPub with requires_admin := true }

/-- Counterexample for C5: with a valid but non-admin credential, creating
an event whose fields set `requires_admin` does not succeed with 201 — the
access policy answers 403 Forbidden, as the spec's own CreateEvent rule
and failure table require. -/
theorem create_event_valid_credential_not_always_201 :
    verify 42 100 tokUser = .ok { user_id := 7, is_admin := false, exp := 3700 } ∧
    create_event 42 100 stWitness (.bearer tokUser) fAdmin =
      (errResponse .Forbidden, stWitness) ∧
    (create_event 42 100 stWitness (.bearer tokUser) fAdmin).fst.status = 403 ∧
    (create_event 42 100 stWitness (.bearer tokUser) fAdmin).fst.status ≠ 201 :=
  ⟨rfl, rfl, rfl, by decide⟩

/-- C5 (amended): creating an event with no credential fails with
Unauthenticated (401); creating an event that does not require admin with
a valid credential succeeds (201) and the returned view echoes the input's
title and is_public exactly. -/
theorem create_event_auth_gate (secret now : Nat) (st : AppState) (f : EventFields)
    (t : Token) (p : TokenPayload) (hv : verify secret now t = .ok p)
    (hreq : f.requires_admin = false) :
    create_event secret now st .anon f = (errResponse .Unauthenticated, st) ∧
    statusOf .Unauthenticated = 401 ∧
    (create_event secret now st (.bearer t) f).fst.status = 201 ∧
    (create_event secret now st (.bearer t) f).fst.body.lookup "title" =
      some (.str f.title) ∧
    (create_event secret now st (.bearer t) f).fst.body.lookup "is_public" =
      some (.bool f.is_public) := by
  refine ⟨rfl, rfl, ?_, ?_, ?_⟩ <;>
    simp [create_event, resolve_actor, hv, hreq, Event.to_dict, List.lookup]

/-- Witness for C5's amended statement: the non-admin token and the public
event fields of the integration test. -/
theorem create_event_auth_gate_witness :
    verify 42 100 tokUser = .ok { user_id := 7, is_admin := false, exp := 3700 } ∧
    fPub.requires_admin = false ∧
    (create_event 42 100 stWitness .anon fPub = (errResponse .Unauthenticated, stWitness) ∧
     statusOf .Unauthenticated = 401 ∧
     (create_event 42 100 stWitness (.bearer tokUser) fPub).fst.status = 201 ∧
     (create_event 42 100 stWitness (.bearer tokUser) fPub).fst.body.lookup "title" =
       some (.str fPub.title) ∧
     (create_event 42 100 stWitness (.bearer tokUser) fPub).fst.body.lookup "is_public" =
       some (.bool fPub.is_public)) :=
  ⟨rfl, rfl,
   create_event_auth_gate 42 100 stWitness fPub tokUser
     { user_id := 7, is_admin := false, exp := 3700 } rfl rfl⟩

/-- C6: registering a username that does not yet exist succeeds with 201,
and a second registration of the same username fails with
DuplicateUsername (400), whatever passwords the two attempts carry. -/
theorem register_duplicate_username (st : AppState) (u p1 p2 : String)
    (h : findUserByUsername st u = none) :
    (register st u p1).fst.status = 201 ∧
    (register ((register st u p1).snd) u p2).fst = errResponse .DuplicateUsername ∧
    statusOf .DuplicateUsername = 400 := by
  have hf : st.users.find? (fun x => x.username == u) = none := by
    simpa [findUserByUsername] using h
  refine ⟨by simp [register, h], ?_, rfl⟩
  simp [register, h, findUserByUsername, List.find?_append, hf, User.set_password]

/-- Witness for C6: registering the fresh username alice twice against the
witness state. -/
theorem register_duplicate_username_witness :
    findUserByUsername stWitness "alice" = none ∧
    ((register stWitness "alice" "pw1").fst.status = 201 ∧
     (register ((register stWitness "alice" "pw1").snd) "alice" "pw2").fst =
       errResponse .DuplicateUsername ∧
     statusOf .DuplicateUsername = 400) :=
  ⟨rfl, register_duplicate_username stWitness "alice" "pw1" "pw2" rfl⟩

/-- C9: a request the policy denies leaves the stored state unchanged —
for registration, event creation and RSVP creation alike, any response
with an error status (400 or above) is paired with the unmodified state,
because each endpoint completes its policy check before mutating. -/
theorem denied_requests_leave_state_unchanged (secret now : Nat) (st : AppState) :
    (∀ u p, 400 ≤ (register st u p).fst.status → (register st u p).snd = st) ∧
    (∀ cred f, 400 ≤ (create_event secret now st cred f).fst.status →
      (create_event secret now st cred f).snd = st) ∧
    (∀ cred eid att, 400 ≤ (create_rsvp secret now st cred eid att).fst.status →
      (create_rsvp secret now st cred eid att).snd = st) := by
  refine ⟨fun u p h => ?_, fun cred f h => ?_, fun cred eid att h => ?_⟩
  · cases hfu : findUserByUsername st u with
    | some v => simp [register, hfu]
    | none => simp [register, hfu] at h
  · cases hra : resolve_actor secret now cred with
    | error e => simp [create_event, hra]
    | ok a =>
      cases a with
      | anonymous => simp [create_event, hra]
      | authenticated p =>
        by_cases hreq : (f.requires_admin && !p.is_admin) = true
        · simp [create_event, hra, hreq]
        · simp [create_event, hra, hreq] at h
  · cases hra : resolve_actor secret now cred with
    | error e => simp [create_rsvp, hra]
    | ok a =>
      cases hfe : findEventById st eid with
      | none => simp [create_rsvp, hra, hfe]
      | some ev =>
        cases hp : rsvpPolicy a ev with
        | some e => simp [create_rsvp, hra, hfe, hp]
        | none => simp [create_rsvp, hra, hfe, hp] at h

/-- State holding an existing user, used to witness the duplicate branch. -/
def stDup : AppState :=
  { users := [{ id := 1, username := "alice" }], events := [],
    next_user_id := 2, next_event_id := 1 }

/-- Witness for C9: a duplicate registration, an unauthenticated event
creation, and an RSVP to an unknown event each leave the state intact. -/
theorem denied_requests_leave_state_unchanged_witness :
    400 ≤ (register stDup "alice" "pw").fst.status ∧
    (register stDup "alice" "pw").snd = stDup ∧
    400 ≤ (create_event 42 100 stWitness .anon fPub).fst.status ∧
    (create_event 42 100 stWitness .anon fPub).snd = stWitness ∧
    400 ≤ (create_rsvp 42 100 stWitness .anon 99 true).fst.status ∧
    (create_rsvp 42 100 stWitness .anon 99 true).snd = stWitness :=
  ⟨by decide,
   (denied_requests_leave_state_unchanged 42 100 stDup).1 "alice" "pw" (by decide),
   by decide,
   (denied_requests_leave_state_unchanged 42 100 stWitness).2.1 .anon fPub (by decide),
   by decide,
   (denied_requests_leave_state_unchanged 42 100 stWitness).2.2 .anon 99 true (by decide)⟩

/-- C10: the view returned on successful event creation carries an `id`
field naming the created event; an anonymous RSVP against that id (fresh
in the store) returns a view whose `event_id` equals it; and the
registration success body nests the user view under a `user` key whose
username equals the requested one. -/
theorem created_ids_flow_through (secret now : Nat) (st : AppState) (t : Token)
    (p : TokenPayload) (f : EventFields) (hv : verify secret now t = .ok p)
    (hreq : f.requires_admin = false) (hpub : f.is_public = true)
    (hfresh : ∀ e ∈ st.events, e.id ≠ st.next_event_id)
    (uname pw : String) (hu : findUserByUsername st uname = none) (att : Bool) :
    (create_event secret now st (.bearer t) f).fst.body.lookup "id" =
      some (.int st.next_event_id) ∧
    (create_rsvp secret now ((create_event secret now st (.bearer t) f).snd) .anon
        st.next_event_id att).fst.body.lookup "event_id" =
      some (.int st.next_event_id) ∧
    (∃ uobj : JObject,
      (register st uname pw).fst.body.lookup "user" = some (.obj uobj) ∧
      uobj.lookup "username" = some (.str uname)) := by
  have hnone : st.events.find? (fun e => e.id == st.next_event_id) = none :=
    List.find?_eq_none.mpr (fun x hx => by simpa using hfresh x hx)
  refine ⟨?_, ?_, ?_⟩
  · simp [create_event, resolve_actor, hv, hreq, Event.to_dict, List.lookup]
  · simp [create_event, resolve_actor, hv, hreq, create_rsvp, findEventById,
      List.find?_append, hnone, rsvpPolicy, hpub, RSVP.to_dict, List.lookup]
  · exact ⟨User.to_dict (User.set_password { id := st.next_user_id, username := uname } pw),
      by simp [register, hu, List.lookup],
      by simp [User.to_dict, User.set_password, List.lookup]⟩

/-- Witness for C10: the non-admin token creating the public test event in
the witness state, an anonymous RSVP to the new id 4, and registration of
the fresh username alice. -/
theorem created_ids_flow_through_witness :
    verify 42 100 tokUser = .ok { user_id := 7, is_admin := false, exp := 3700 } ∧
    fPub.requires_admin = false ∧
    fPub.is_public = true ∧
    (∀ e ∈ stWitness.events, e.id ≠ stWitness.next_event_id) ∧
    findUserByUsername stWitness "alice" = none ∧
    ((create_event 42 100 stWitness (.bearer tokUser) fPub).fst.body.lookup "id" =
      some (.int stWitness.next_event_id) ∧
    (create_rsvp 42 100 ((create_event 42 100 stWitness (.bearer tokUser) fPub).snd) .anon
        stWitness.next_event_id true).fst.body.lookup "event_id" =
      some (.int stWitness.next_event_id) ∧
    (∃ uobj : JObject,
      (register stWitness "alice" "pw").fst.body.lookup "user" = some (.obj uobj) ∧
      uobj.lookup "username" = some (.str "alice"))) :=
  ⟨rfl, rfl, rfl, by decide, rfl,
   created_ids_flow_through 42 100 stWitness tokUser
     { user_id := 7, is_admin := false, exp := 3700 } fPub rfl rfl rfl (by decide)
     "alice" "pw" rfl true⟩


